import Mathlib

/-!
# Inventory invariant engine — verification

A shallow embedding of the quantity/reservation invariant engine of
`distributed-inventory-system`:

* `internal/domain` (`Product`, `InventoryItem`, `Transaction` and their
  `Validate` methods);
* `internal/service` (`InventoryService.CreateProduct/AddStock/RemoveStock/
  ReserveStock/UnreserveStock`);
* `internal/repository` (`PostgresInventoryRepository.UpdateQuantity`, the
  guarded atomic conditional UPDATE).

Go `int64` fields are modelled as `Int`: the store is PostgreSQL `bigint`,
whose arithmetic is exact within range (on overflow the statement errors and
no row is changed, so successful operations behave like exact integers).
ID/timestamp fields, which the claims do not touch, are omitted; the
transactions table rows belonging to one inventory item are carried in the
item state, in creation order.
-/

namespace DistInv

/-- One row of the `transactions` table (`domain.Transaction`): `type` is a
string from `{IN, OUT, RETURN, RESERVE, UNRESERVE}`, `quantity` is positive,
`reference` and `notes` are free text.  ID and timestamp fields are omitted. -/
structure Txn where
  type : String
  quantity : Int
  reference : String
  notes : String
  deriving DecidableEq, Repr

/-- `domain.Transaction.Validate`'s closed set of valid transaction types. -/
def validTxnType (t : String) : Bool :=
  t == "IN" || t == "OUT" || t == "RETURN" || t == "RESERVE" || t == "UNRESERVE"

/-- `domain.Transaction.Validate`, restricted to the modelled fields:
quantity must be positive and the type must be in the closed set. -/
def txnValidate (t : Txn) : Bool :=
  decide (0 < t.quantity) && validTxnType t.type

/-- The stock state of one `domain.InventoryItem` (`quantity`, `reserved`)
together with the transaction rows recorded for it, in creation order. -/
structure InvState where
  quantity : Int
  reserved : Int
  txs : List Txn
  deriving DecidableEq, Repr

/-- `domain.InventoryItem.AvailableQuantity`: `quantity - reserved`, floored
at zero. -/
def availableQuantity (s : InvState) : Int :=
  let available := s.quantity - s.reserved
  if available < 0 then 0 else available

/-- The documented inventory invariant: `0 ≤ reserved ≤ quantity`. -/
def invHolds (s : InvState) : Prop :=
  0 ≤ s.reserved ∧ s.reserved ≤ s.quantity

instance (s : InvState) : Decidable (invHolds s) := by
  unfold invHolds; infer_instance

/-- The invariant on a bare `(quantity, reserved)` pair, used to speak about
the joint effect of two racing deltas. -/
def pairInv (p : Int × Int) : Prop :=
  0 ≤ p.2 ∧ p.2 ≤ p.1

instance (p : Int × Int) : Decidable (pairInv p) := by
  unfold pairInv; infer_instance

/-- The error outcomes of the engine, one constructor per distinct error the
Go code can return on the modelled paths:
* `quantityNotPositive` — "quantity must be positive" (service pre-validation);
* `insufficientStock` — "insufficient stock available" /
  "insufficient stock available for reservation" (service pre-check);
* `insufficientReservedStock` — "insufficient reserved stock";
* `updateFailed` — "quantity update failed: invalid operation or item not
  found" (zero rows affected by the guarded conditional UPDATE);
* `auditAppendFailed` — "failed to record transaction" (mutation applied,
  transaction append failed);
* `invalidProduct` / `invalidInventory` — validation rejections during
  product creation. -/
inductive InvError where
  | quantityNotPositive
  | insufficientStock
  | insufficientReservedStock
  | updateFailed
  | auditAppendFailed
  | invalidProduct
  | invalidInventory
  deriving DecidableEq, Repr

instance {ε α : Type} [DecidableEq ε] [DecidableEq α] :
    DecidableEq (Except ε α) := fun a b =>
  match a, b with
  | .ok x, .ok y =>
      if h : x = y then .isTrue (by rw [h])
      else .isFalse (fun hc => h (Except.ok.inj hc))
  | .ok _, .error _ => .isFalse (fun hc => Except.noConfusion hc)
  | .error _, .ok _ => .isFalse (fun hc => Except.noConfusion hc)
  | .error x, .error y =>
      if h : x = y then .isTrue (by rw [h])
      else .isFalse (fun hc => h (Except.error.inj hc))

/-- `PostgresInventoryRepository.UpdateQuantity`: the single guarded atomic
conditional UPDATE.  The row is changed exactly when
`(quantity + Δq) ≥ 0 ∧ (reserved + Δr) ≥ 0 ∧ (quantity + Δq - reserved - Δr) ≥ 0`;
otherwise zero rows are affected (`none`) and the state is untouched. -/
def updateQuantity (quantityDelta reservedDelta : Int) (s : InvState) :
    Option InvState :=
  if 0 ≤ s.quantity + quantityDelta ∧ 0 ≤ s.reserved + reservedDelta ∧
      0 ≤ s.quantity + quantityDelta - s.reserved - reservedDelta then
    some { s with quantity := s.quantity + quantityDelta,
                  reserved := s.reserved + reservedDelta }
  else
    none

/-- Append one transaction row (`transactionRepo.Create`) to the item's
recorded transactions, preserving creation order. -/
def appendTxn (s : InvState) (ty : String) (qty : Int) (ref notes : String) :
    InvState :=
  { s with txs := s.txs ++ [⟨ty, qty, ref, notes⟩] }

/-- The four guarded mutating operations of `InventoryService`, with the
caller-supplied quantity and reference. -/
inductive StockOp where
  | add (qty : Int) (ref : String)
  | remove (qty : Int) (ref : String)
  | reserve (qty : Int) (ref : String)
  | unreserve (qty : Int) (ref : String)
  deriving DecidableEq, Repr

/-- One service operation, with the two store interactions separated:
`sRead` is the item state returned by `GetByProductID` (the snapshot the
service pre-checks run against) and `sDb` is the store state at the moment
the guarded conditional UPDATE executes.  A sequential call has
`sRead = sDb`; a racing writer can make them differ.  Each arm mirrors one
Go method line by line (positivity check, pre-check on the snapshot, guarded
update on the store, transaction append); every error return leaves the
store state `sDb` unchanged, exactly as the Go code returns before any
mutating call (or after a zero-row UPDATE). -/
def opRun2 : StockOp → InvState → InvState → Except InvError Unit × InvState
  | .add qty ref, _sRead, sDb =>
      if qty ≤ 0 then (.error .quantityNotPositive, sDb)
      else
        match updateQuantity qty 0 sDb with
        | none => (.error .updateFailed, sDb)
        | some s1 => (.ok (), appendTxn s1 "IN" qty ref "Stock addition")
  | .remove qty ref, sRead, sDb =>
      if qty ≤ 0 then (.error .quantityNotPositive, sDb)
      else if availableQuantity sRead < qty then (.error .insufficientStock, sDb)
      else
        match updateQuantity (-qty) 0 sDb with
        | none => (.error .updateFailed, sDb)
        | some s1 => (.ok (), appendTxn s1 "OUT" qty ref "Stock removal")
  | .reserve qty ref, sRead, sDb =>
      if qty ≤ 0 then (.error .quantityNotPositive, sDb)
      else if availableQuantity sRead < qty then (.error .insufficientStock, sDb)
      else
        match updateQuantity 0 qty sDb with
        | none => (.error .updateFailed, sDb)
        | some s1 => (.ok (), appendTxn s1 "RESERVE" qty ref "Stock reservation")
  | .unreserve qty ref, sRead, sDb =>
      if qty ≤ 0 then (.error .quantityNotPositive, sDb)
      else if sRead.reserved < qty then (.error .insufficientReservedStock, sDb)
      else
        match updateQuantity 0 (-qty) sDb with
        | none => (.error .updateFailed, sDb)
        | some s1 => (.ok (), appendTxn s1 "UNRESERVE" qty ref "Stock unreservation")

/-- A sequential service call: the snapshot read by `GetByProductID` is the
store state itself. -/
def opRun (op : StockOp) (s : InvState) : Except InvError Unit × InvState :=
  opRun2 op s s

/-- The store state after a sequential call: a rejected call leaves it
unchanged, a successful call applies the mutation and appends the record. -/
def applyOp (s : InvState) (op : StockOp) : InvState :=
  (opRun op s).2

/-- The store state after a sequence of sequential calls. -/
def applySeq (s : InvState) (ops : List StockOp) : InvState :=
  ops.foldl applyOp s

/-- The caller-supplied quantity of an operation. -/
def opQty : StockOp → Int
  | .add qty _ => qty
  | .remove qty _ => qty
  | .reserve qty _ => qty
  | .unreserve qty _ => qty

/-- The signed `(quantityDelta, reservedDelta)` pair each operation passes to
`UpdateQuantity`. -/
def opDelta : StockOp → Int × Int
  | .add qty _ => (qty, 0)
  | .remove qty _ => (-qty, 0)
  | .reserve qty _ => (0, qty)
  | .unreserve qty _ => (0, -qty)

/-- The service-level pre-check each operation runs against the snapshot it
read (`true` means the check passes): AddStock has none, RemoveStock and
ReserveStock require `available ≥ qty`, UnreserveStock requires
`reserved ≥ qty`. -/
def opPrecheck (op : StockOp) (sRead : InvState) : Bool :=
  match op with
  | .add _ _ => true
  | .remove qty _ => decide (qty ≤ availableQuantity sRead)
  | .reserve qty _ => decide (qty ≤ availableQuantity sRead)
  | .unreserve qty _ => decide (qty ≤ sRead.reserved)

/-- `domain.Product`, restricted to the validated fields (price is the
non-negative decimal, modelled exactly as a rational). -/
structure Product where
  name : String
  description : String
  sku : String
  price : ℚ
  deriving DecidableEq, Repr

/-- `domain.Product.Validate`: non-empty name, non-empty SKU, price ≥ 0. -/
def productValidate (p : Product) : Bool :=
  !(p.name == "") && !(p.sku == "") && decide (0 ≤ p.price)

/-- `InventoryService.CreateProduct`, with the fallibility of the
INITIAL_STOCK transaction append made explicit: `auditOk` tells whether
`transactionRepo.Create` would succeed.  The Go code validates the product,
creates the product row, creates the inventory item (whose
`InventoryItem.Validate` requires `quantity ≥ 0`, `reserved ≥ 0`,
`reserved ≤ quantity` and a non-empty location), and, when the initial
quantity is positive, appends an `IN` transaction with reference
`INITIAL_STOCK` — discarding any error from that append (`_ =`). -/
def createProductA (p : Product) (location : String) (initialQuantity : Int)
    (auditOk : Bool) : Except InvError InvState :=
  if ¬ productValidate p then .error .invalidProduct
  else if ¬ (0 ≤ initialQuantity ∧ location ≠ "") then .error .invalidInventory
  else
    .ok { quantity := initialQuantity, reserved := 0,
          txs :=
            if 0 < initialQuantity ∧ auditOk then
              [⟨"IN", initialQuantity, "INITIAL_STOCK", "Initial stock entry"⟩]
            else [] }

/-- `InventoryService.CreateProduct` when the transaction store is healthy. -/
def createProduct (p : Product) (location : String) (initialQuantity : Int) :
    Except InvError InvState :=
  createProductA p location initialQuantity true

/-- The inventory state a successful `CreateProduct` with initial quantity
`q0` leaves behind (audit append healthy): quantity `q0`, nothing reserved,
and an `INITIAL_STOCK` ledger entry exactly when `q0 > 0`. -/
def createdState (q0 : Int) : InvState :=
  { quantity := q0, reserved := 0,
    txs := if 0 < q0 then
        [⟨"IN", q0, "INITIAL_STOCK", "Initial stock entry"⟩]
      else [] }

/-- The four mutating operations with the fallibility of the transaction
append made explicit (`auditOk` tells whether `transactionRepo.Create` would
succeed).  On append failure the Go service returns
"failed to record transaction: …" and does not roll back the already-applied
guarded mutation. -/
def opRunAudit : StockOp → Bool → InvState → Except InvError Unit × InvState
  | .add qty ref, auditOk, s =>
      if qty ≤ 0 then (.error .quantityNotPositive, s)
      else
        match updateQuantity qty 0 s with
        | none => (.error .updateFailed, s)
        | some s1 =>
            if auditOk then (.ok (), appendTxn s1 "IN" qty ref "Stock addition")
            else (.error .auditAppendFailed, s1)
  | .remove qty ref, auditOk, s =>
      if qty ≤ 0 then (.error .quantityNotPositive, s)
      else if availableQuantity s < qty then (.error .insufficientStock, s)
      else
        match updateQuantity (-qty) 0 s with
        | none => (.error .updateFailed, s)
        | some s1 =>
            if auditOk then (.ok (), appendTxn s1 "OUT" qty ref "Stock removal")
            else (.error .auditAppendFailed, s1)
  | .reserve qty ref, auditOk, s =>
      if qty ≤ 0 then (.error .quantityNotPositive, s)
      else if availableQuantity s < qty then (.error .insufficientStock, s)
      else
        match updateQuantity 0 qty s with
        | none => (.error .updateFailed, s)
        | some s1 =>
            if auditOk then (.ok (), appendTxn s1 "RESERVE" qty ref "Stock reservation")
            else (.error .auditAppendFailed, s1)
  | .unreserve qty ref, auditOk, s =>
      if qty ≤ 0 then (.error .quantityNotPositive, s)
      else if s.reserved < qty then (.error .insufficientReservedStock, s)
      else
        match updateQuantity 0 (-qty) s with
        | none => (.error .updateFailed, s)
        | some s1 =>
            if auditOk then (.ok (), appendTxn s1 "UNRESERVE" qty ref "Stock unreservation")
            else (.error .auditAppendFailed, s1)

/-! ## Basic lemmas -/

/-- Characterization of a successful guarded UPDATE: the deltas are applied,
the transaction list is untouched, and all three guard conditions held. -/
theorem updateQuantity_some {dq dr : Int} {s s' : InvState}
    (h : updateQuantity dq dr s = some s') :
    s'.quantity = s.quantity + dq ∧ s'.reserved = s.reserved + dr ∧
    s'.txs = s.txs ∧ 0 ≤ s.quantity + dq ∧ 0 ≤ s.reserved + dr ∧
    0 ≤ s.quantity + dq - s.reserved - dr := by
  unfold updateQuantity at h
  split at h
  · next hg =>
      obtain ⟨g1, g2, g3⟩ := hg
      injection h with h
      subst h
      exact ⟨rfl, rfl, rfl, g1, g2, g3⟩
  · exact Option.noConfusion h

/-- The guarded UPDATE affects zero rows exactly when one of the three guard
conditions fails. -/
theorem updateQuantity_none {dq dr : Int} {s : InvState} :
    updateQuantity dq dr s = none ↔
    ¬ (0 ≤ s.quantity + dq ∧ 0 ≤ s.reserved + dr ∧
        0 ≤ s.quantity + dq - s.reserved - dr) := by
  unfold updateQuantity
  split <;> simp_all

/-- Every call — sequential or racing, successful or rejected — leaves the
store in a state satisfying the invariant, provided the store satisfied it
before: rejections do not touch the store and the guard of a successful
UPDATE forces the invariant on the post-state. -/
theorem opRun2_invHolds (op : StockOp) (sRead sDb : InvState)
    (h : invHolds sDb) : invHolds (opRun2 op sRead sDb).2 := by
  cases op with
  | add qty ref =>
      simp only [opRun2]
      split
      · exact h
      · split
        · exact h
        · next s1 heq =>
            obtain ⟨hq, hr, _, g1, g2, g3⟩ := updateQuantity_some heq
            simp only [appendTxn, invHolds]
            exact ⟨by omega, by omega⟩
  | remove qty ref =>
      simp only [opRun2]
      split
      · exact h
      · split
        · exact h
        · split
          · exact h
          · next s1 heq =>
              obtain ⟨hq, hr, _, g1, g2, g3⟩ := updateQuantity_some heq
              simp only [appendTxn, invHolds]
              exact ⟨by omega, by omega⟩
  | reserve qty ref =>
      simp only [opRun2]
      split
      · exact h
      · split
        · exact h
        · split
          · exact h
          · next s1 heq =>
              obtain ⟨hq, hr, _, g1, g2, g3⟩ := updateQuantity_some heq
              simp only [appendTxn, invHolds]
              exact ⟨by omega, by omega⟩
  | unreserve qty ref =>
      simp only [opRun2]
      split
      · exact h
      · split
        · exact h
        · split
          · exact h
          · next s1 heq =>
              obtain ⟨hq, hr, _, g1, g2, g3⟩ := updateQuantity_some heq
              simp only [appendTxn, invHolds]
              exact ⟨by omega, by omega⟩

/-- A sequential call preserves the inventory invariant. -/
theorem applyOp_invHolds (s : InvState) (op : StockOp) (h : invHolds s) :
    invHolds (applyOp s op) :=
  opRun2_invHolds op s s h

/-- The invariant holds for every state reached by a sequence of sequential
calls from an invariant state. -/
theorem applySeq_invHolds (s : InvState) (ops : List StockOp)
    (h : invHolds s) : invHolds (applySeq s ops) := by
  induction ops generalizing s with
  | nil => exact h
  | cons op ops ih =>
      exact ih _ (applyOp_invHolds s op h)

/-- The freshly created inventory state satisfies the invariant whenever the
initial quantity is non-negative. -/
theorem createdState_invHolds (q0 : Int) (h : 0 ≤ q0) :
    invHolds (createdState q0) := by
  exact ⟨le_refl 0, h⟩

/-- C1: starting from creation with initial quantity ≥ 0 and reserved = 0,
every state reached by any sequence of AddStock/RemoveStock/ReserveStock/
UnreserveStock calls satisfies `0 ≤ reserved ≤ quantity`; since every prefix
of a sequence is itself a sequence, the invariant holds after every
operation. -/
theorem c1_invariant_reachable (q0 : Int) (ops : List StockOp) (h : 0 ≤ q0) :
    invHolds (applySeq (createdState q0) ops) :=
  applySeq_invHolds _ ops (createdState_invHolds q0 h)

/-- C1 witness: a concrete run from creation with quantity 50. -/
theorem c1_invariant_reachable_witness :
    invHolds (applySeq (createdState 50)
      [.remove 20 "ORDER-001", .reserve 10 "ORDER-002", .unreserve 5 "ORDER-002",
       .add 7 "PO-001", .remove 100 "ORDER-003"]) :=
  c1_invariant_reachable 50 _ (by decide)

/-! ## Ledger sums and replay -/

/-- Sum of the quantities of the recorded transactions of one type. -/
def txnSum (ty : String) : List Txn → Int
  | [] => 0
  | t :: ts => (if t.type == ty then t.quantity else 0) + txnSum ty ts

/-- The `(quantity, reserved)` delta a recorded transaction denotes when the
ledger is replayed: IN adds to quantity, OUT subtracts from it, RESERVE adds
to reserved, UNRESERVE subtracts from it. -/
def txnDelta (t : Txn) : Int × Int :=
  if t.type == "IN" then (t.quantity, 0)
  else if t.type == "OUT" then (-t.quantity, 0)
  else if t.type == "RESERVE" then (0, t.quantity)
  else if t.type == "UNRESERVE" then (0, -t.quantity)
  else (0, 0)

/-- Replay a ledger in creation order from an initial `(quantity, reserved)`
pair, applying each transaction's delta. -/
def replay (q r : Int) : List Txn → Int × Int
  | [] => (q, r)
  | t :: ts => replay (q + (txnDelta t).1) (r + (txnDelta t).2) ts

theorem txnSum_append (ty : String) (l : List Txn) (t : Txn) :
    txnSum ty (l ++ [t]) = txnSum ty l + (if t.type == ty then t.quantity else 0) := by
  induction l with
  | nil => simp [txnSum]
  | cons u us ih => simp [txnSum, ih]; ring

theorem replay_append (q r : Int) (l : List Txn) (t : Txn) :
    replay q r (l ++ [t]) =
      ((replay q r l).1 + (txnDelta t).1, (replay q r l).2 + (txnDelta t).2) := by
  induction l generalizing q r with
  | nil => simp [replay]
  | cons u us ih => simp [replay, ih]

/-- Replaying a ledger amounts to adding `Σ(IN) − Σ(OUT)` to the initial
quantity and `Σ(RESERVE) − Σ(UNRESERVE)` to the initial reserved amount. -/
theorem replay_eq_sums (txs : List Txn) (q r : Int) :
    replay q r txs =
      (q + txnSum "IN" txs - txnSum "OUT" txs,
       r + txnSum "RESERVE" txs - txnSum "UNRESERVE" txs) := by
  induction txs generalizing q r with
  | nil => simp [replay, txnSum]
  | cons t ts ih =>
      simp only [replay, txnSum, ih, txnDelta]
      split_ifs <;> simp_all <;> ring

/-- Ledger agreement as a state predicate: replaying the recorded
transactions from `(q0, r0)` reproduces the current quantity and reserved. -/
def replayOK (q0 r0 : Int) (s : InvState) : Prop :=
  replay q0 r0 s.txs = (s.quantity, s.reserved)

/-- Every sequential call preserves ledger agreement: a rejection changes
neither the state nor the ledger, and a successful call appends exactly one
transaction whose delta equals the delta the guarded UPDATE applied. -/
theorem applyOp_replayOK (q0 r0 : Int) (s : InvState) (op : StockOp)
    (h : replayOK q0 r0 s) : replayOK q0 r0 (applyOp s op) := by
  cases op with
  | add qty ref =>
      simp only [applyOp, opRun, opRun2]
      split
      · exact h
      · split
        · exact h
        · next s1 heq =>
            obtain ⟨hq, hr, ht, _, _, _⟩ := updateQuantity_some heq
            simp only [replayOK, appendTxn, replay_append, ht, h, txnDelta]
            simp only [replayOK] at h
            simp [h, hq, hr, txnDelta]
  | remove qty ref =>
      simp only [applyOp, opRun, opRun2]
      split
      · exact h
      · split
        · exact h
        · split
          · exact h
          · next s1 heq =>
              obtain ⟨hq, hr, ht, _, _, _⟩ := updateQuantity_some heq
              simp only [replayOK, appendTxn, replay_append, ht]
              simp only [replayOK] at h
              simp [h, hq, hr, txnDelta]
  | reserve qty ref =>
      simp only [applyOp, opRun, opRun2]
      split
      · exact h
      · split
        · exact h
        · split
          · exact h
          · next s1 heq =>
              obtain ⟨hq, hr, ht, _, _, _⟩ := updateQuantity_some heq
              simp only [replayOK, appendTxn, replay_append, ht]
              simp only [replayOK] at h
              simp [h, hq, hr, txnDelta]
  | unreserve qty ref =>
      simp only [applyOp, opRun, opRun2]
      split
      · exact h
      · split
        · exact h
        · split
          · exact h
          · next s1 heq =>
              obtain ⟨hq, hr, ht, _, _, _⟩ := updateQuantity_some heq
              simp only [replayOK, appendTxn, replay_append, ht]
              simp only [replayOK] at h
              simp [h, hq, hr, txnDelta]

/-- Ledger agreement is preserved by whole sequences of sequential calls. -/
theorem applySeq_replayOK (q0 r0 : Int) (s : InvState) (ops : List StockOp)
    (h : replayOK q0 r0 s) : replayOK q0 r0 (applySeq s ops) := by
  induction ops generalizing s with
  | nil => exact h
  | cons op ops ih => exact ih _ (applyOp_replayOK q0 r0 s op h)

/-- C2: (conservation) starting from quantity `q0` and nothing reserved with
an empty ledger, after any sequence of operations the final quantity equals
`q0 + Σ(IN) − Σ(OUT)` and the final reserved equals
`Σ(RESERVE) − Σ(UNRESERVE)` over the recorded transactions — rejected
operations record nothing and change nothing; (ledger agreement) starting
from a `CreateProduct` with initial quantity `q0 ≥ 0` (whose INITIAL_STOCK
entry is part of the ledger), replaying all recorded transactions in
creation order from `(0, 0)` reproduces the current quantity and reserved
exactly. -/
theorem c2_conservation_and_ledger (q0 : Int) (ops : List StockOp)
    (h : 0 ≤ q0) :
    ((applySeq ⟨q0, 0, []⟩ ops).quantity =
        q0 + txnSum "IN" (applySeq ⟨q0, 0, []⟩ ops).txs
           - txnSum "OUT" (applySeq ⟨q0, 0, []⟩ ops).txs ∧
      (applySeq ⟨q0, 0, []⟩ ops).reserved =
        txnSum "RESERVE" (applySeq ⟨q0, 0, []⟩ ops).txs
          - txnSum "UNRESERVE" (applySeq ⟨q0, 0, []⟩ ops).txs) ∧
    replay 0 0 (applySeq (createdState q0) ops).txs =
      ((applySeq (createdState q0) ops).quantity,
       (applySeq (createdState q0) ops).reserved) := by
  constructor
  · have h0 : replayOK q0 0 ⟨q0, 0, []⟩ := by simp [replayOK, replay]
    have hfin := applySeq_replayOK q0 0 _ ops h0
    simp only [replayOK, replay_eq_sums, Prod.mk.injEq] at hfin
    obtain ⟨hq, hr⟩ := hfin
    exact ⟨by omega, by omega⟩
  · have h0 : replayOK 0 0 (createdState q0) := by
      simp only [replayOK, createdState]
      split
      · simp [replay, txnDelta]
      · simp only [replay]
        have : q0 = 0 := by omega
        simp [this]
    exact applySeq_replayOK 0 0 _ ops h0

/-- C2 witness: a concrete run from creation with quantity 50, containing a
rejected operation. -/
theorem c2_conservation_and_ledger_witness :
    ((applySeq (InvState.mk 50 0 []) [StockOp.remove 20 "A", StockOp.remove 100 "B"]).quantity =
        50 + txnSum "IN" (applySeq (InvState.mk 50 0 []) [StockOp.remove 20 "A", StockOp.remove 100 "B"]).txs
           - txnSum "OUT" (applySeq (InvState.mk 50 0 []) [StockOp.remove 20 "A", StockOp.remove 100 "B"]).txs ∧
      (applySeq (InvState.mk 50 0 []) [StockOp.remove 20 "A", StockOp.remove 100 "B"]).reserved =
        txnSum "RESERVE" (applySeq (InvState.mk 50 0 []) [StockOp.remove 20 "A", StockOp.remove 100 "B"]).txs
          - txnSum "UNRESERVE" (applySeq (InvState.mk 50 0 []) [StockOp.remove 20 "A", StockOp.remove 100 "B"]).txs) ∧
    replay 0 0 (applySeq (createdState 50) [StockOp.remove 20 "A", StockOp.remove 100 "B"]).txs =
      ((applySeq (createdState 50) [StockOp.remove 20 "A", StockOp.remove 100 "B"]).quantity,
       (applySeq (createdState 50) [StockOp.remove 20 "A", StockOp.remove 100 "B"]).reserved) :=
  c2_conservation_and_ledger 50 [StockOp.remove 20 "A", StockOp.remove 100 "B"] (by decide)

/-! ## Single-operation contracts -/

/-- On a state satisfying the invariant, `availableQuantity` is plain
`quantity - reserved` (the floor at zero is inactive). -/
theorem availableQuantity_eq {s : InvState} (h : invHolds s) :
    availableQuantity s = s.quantity - s.reserved := by
  obtain ⟨h0, h1⟩ := h
  show (if s.quantity - s.reserved < 0 then 0 else s.quantity - s.reserved) =
    s.quantity - s.reserved
  split <;> omega

/-- C3: on an invariant state, `RemoveStock` with `available ≥ qty > 0`
succeeds, decreases quantity by exactly `qty`, leaves reserved alone and
appends exactly one OUT transaction of quantity `qty`; with
`available < qty` it fails with the insufficient-stock error and returns the
state unchanged. -/
theorem c3_removeStock (s : InvState) (qty : Int) (ref : String)
    (hinv : invHolds s) (hq : 0 < qty) :
    (qty ≤ availableQuantity s →
      opRun (.remove qty ref) s =
        (.ok (), ⟨s.quantity - qty, s.reserved,
                  s.txs ++ [⟨"OUT", qty, ref, "Stock removal"⟩]⟩)) ∧
    (availableQuantity s < qty →
      opRun (.remove qty ref) s = (.error .insufficientStock, s)) := by
  have havail := availableQuantity_eq hinv
  obtain ⟨h0, h1⟩ := hinv
  constructor
  · intro hge
    have hupd : updateQuantity (-qty) 0 s =
        some { s with quantity := s.quantity + -qty, reserved := s.reserved + 0 } := by
      unfold updateQuantity
      rw [if_pos ⟨by omega, by omega, by omega⟩]
    simp only [opRun, opRun2, if_neg (by omega : ¬ qty ≤ 0),
      if_neg (by omega : ¬ availableQuantity s < qty), hupd]
    rw [(by omega : s.quantity + -qty = s.quantity - qty),
        (by omega : s.reserved + (0 : Int) = s.reserved)]
    exact rfl
  · intro hlt
    simp only [opRun, opRun2, if_neg (by omega : ¬ qty ≤ 0), if_pos hlt]

/-- C3 witness: the spec's concrete scenarios — removing 20 from quantity 50
succeeds and yields quantity 30 with one OUT record; removing 20 from
quantity 10 fails with the insufficient-stock error and leaves the state
untouched. -/
theorem c3_removeStock_witness :
    opRun (.remove 20 "ORDER-001") (InvState.mk 50 0 []) =
      (.ok (), InvState.mk 30 0 [Txn.mk "OUT" 20 "ORDER-001" "Stock removal"]) ∧
    opRun (.remove 20 "ORDER-002") (InvState.mk 10 0 []) =
      (.error .insufficientStock, InvState.mk 10 0 []) :=
  ⟨(c3_removeStock (InvState.mk 50 0 []) 20 "ORDER-001" (by decide) (by decide)).1
      (by decide),
   (c3_removeStock (InvState.mk 10 0 []) 20 "ORDER-002" (by decide) (by decide)).2
      (by decide)⟩

/-- C4: on an invariant state, `ReserveStock` with `available ≥ qty > 0`
succeeds, increases reserved by exactly `qty`, leaves quantity unchanged and
appends exactly one RESERVE transaction of quantity `qty`; with
`available < qty` it fails with the insufficient-stock error and returns the
state unchanged. -/
theorem c4_reserveStock (s : InvState) (qty : Int) (ref : String)
    (hinv : invHolds s) (hq : 0 < qty) :
    (qty ≤ availableQuantity s →
      opRun (.reserve qty ref) s =
        (.ok (), ⟨s.quantity, s.reserved + qty,
                  s.txs ++ [⟨"RESERVE", qty, ref, "Stock reservation"⟩]⟩)) ∧
    (availableQuantity s < qty →
      opRun (.reserve qty ref) s = (.error .insufficientStock, s)) := by
  have havail := availableQuantity_eq hinv
  obtain ⟨h0, h1⟩ := hinv
  constructor
  · intro hge
    have hupd : updateQuantity 0 qty s =
        some { s with quantity := s.quantity + 0, reserved := s.reserved + qty } := by
      unfold updateQuantity
      rw [if_pos ⟨by omega, by omega, by omega⟩]
    simp only [opRun, opRun2, if_neg (by omega : ¬ qty ≤ 0),
      if_neg (by omega : ¬ availableQuantity s < qty), hupd]
    rw [(by omega : s.quantity + (0 : Int) = s.quantity)]
    exact rfl
  · intro hlt
    simp only [opRun, opRun2, if_neg (by omega : ¬ qty ≤ 0), if_pos hlt]

/-- C4 witness: reserving 10 on quantity 50 / reserved 0 succeeds, yields
reserved 10, quantity still 50, one RESERVE record, and available 40. -/
theorem c4_reserveStock_witness :
    opRun (.reserve 10 "ORDER-001") (InvState.mk 50 0 []) =
      (.ok (), InvState.mk 50 10 [Txn.mk "RESERVE" 10 "ORDER-001" "Stock reservation"]) ∧
    availableQuantity (InvState.mk 50 10 []) = 40 :=
  ⟨(c4_reserveStock (InvState.mk 50 0 []) 10 "ORDER-001" (by decide) (by decide)).1
      (by decide),
   by decide⟩

/-- C5: any rejected call — positivity check, service pre-check, or
zero-rows guarded UPDATE — returns the store state unchanged, so quantity,
reserved and the number of recorded transactions are all untouched. -/
theorem c5_rejection_no_side_effect (op : StockOp) (s : InvState)
    (e : InvError) (h : (opRun op s).1 = .error e) :
    (opRun op s).2 = s ∧ (opRun op s).2.txs.length = s.txs.length := by
  cases op with
  | add qty ref =>
      by_cases h1 : qty ≤ 0
      · simp only [opRun, opRun2, if_pos h1]
        constructor <;> trivial
      · rcases hu : updateQuantity qty 0 s with _ | s1
        · simp only [opRun, opRun2, if_neg h1, hu]
          constructor <;> trivial
        · exfalso
          simp only [opRun, opRun2, if_neg h1, hu] at h
          exact Except.noConfusion h
  | remove qty ref =>
      by_cases h1 : qty ≤ 0
      · simp only [opRun, opRun2, if_pos h1]
        constructor <;> trivial
      · by_cases h2 : availableQuantity s < qty
        · simp only [opRun, opRun2, if_neg h1, if_pos h2]
          constructor <;> trivial
        · rcases hu : updateQuantity (-qty) 0 s with _ | s1
          · simp only [opRun, opRun2, if_neg h1, if_neg h2, hu]
            constructor <;> trivial
          · exfalso
            simp only [opRun, opRun2, if_neg h1, if_neg h2, hu] at h
            exact Except.noConfusion h
  | reserve qty ref =>
      by_cases h1 : qty ≤ 0
      · simp only [opRun, opRun2, if_pos h1]
        constructor <;> trivial
      · by_cases h2 : availableQuantity s < qty
        · simp only [opRun, opRun2, if_neg h1, if_pos h2]
          constructor <;> trivial
        · rcases hu : updateQuantity 0 qty s with _ | s1
          · simp only [opRun, opRun2, if_neg h1, if_neg h2, hu]
            constructor <;> trivial
          · exfalso
            simp only [opRun, opRun2, if_neg h1, if_neg h2, hu] at h
            exact Except.noConfusion h
  | unreserve qty ref =>
      by_cases h1 : qty ≤ 0
      · simp only [opRun, opRun2, if_pos h1]
        constructor <;> trivial
      · by_cases h2 : s.reserved < qty
        · simp only [opRun, opRun2, if_neg h1, if_pos h2]
          constructor <;> trivial
        · rcases hu : updateQuantity 0 (-qty) s with _ | s1
          · simp only [opRun, opRun2, if_neg h1, if_neg h2, hu]
            constructor <;> trivial
          · exfalso
            simp only [opRun, opRun2, if_neg h1, if_neg h2, hu] at h
            exact Except.noConfusion h

/-- C5 witness: the spec's scenario — unreserving 20 with only 5 reserved is
rejected with the insufficient-reserved-stock error and leaves the state
(and its transaction count) unchanged. -/
theorem c5_rejection_no_side_effect_witness :
    (opRun (.unreserve 20 "ORDER-001") (InvState.mk 50 5 [])).1 =
      .error .insufficientReservedStock ∧
    (opRun (.unreserve 20 "ORDER-001") (InvState.mk 50 5 [])).2 =
      InvState.mk 50 5 [] ∧
    (opRun (.unreserve 20 "ORDER-001") (InvState.mk 50 5 [])).2.txs.length =
      ([] : List Txn).length :=
  ⟨rfl,
   (c5_rejection_no_side_effect (.unreserve 20 "ORDER-001") (InvState.mk 50 5 [])
      .insufficientReservedStock rfl).1,
   (c5_rejection_no_side_effect (.unreserve 20 "ORDER-001") (InvState.mk 50 5 [])
      .insufficientReservedStock rfl).2⟩

/-! ## Product creation -/

/-- C8: for a valid product, a non-empty location and an initial quantity
`q0 ≥ 0`, `CreateProduct` succeeds and yields an inventory item with
quantity `q0` and reserved `0`; exactly when `q0 > 0` its ledger holds
exactly one IN transaction of quantity `q0` with reference `INITIAL_STOCK`,
and when `q0 = 0` it holds no transaction at all. -/
theorem c8_createProduct (p : Product) (location : String) (q0 : Int)
    (hp : productValidate p = true) (hloc : location ≠ "") (hq : 0 ≤ q0) :
    createProduct p location q0 = .ok (createdState q0) ∧
    (createdState q0).quantity = q0 ∧ (createdState q0).reserved = 0 ∧
    (0 < q0 → (createdState q0).txs =
      [⟨"IN", q0, "INITIAL_STOCK", "Initial stock entry"⟩]) ∧
    (q0 = 0 → (createdState q0).txs = []) := by
  refine ⟨?_, rfl, rfl, ?_, ?_⟩
  · unfold createProduct createProductA
    rw [if_neg (not_not_intro hp), if_neg (not_not_intro ⟨hq, hloc⟩)]
    unfold createdState
    simp
  · intro h
    unfold createdState
    rw [if_pos h]
  · intro h
    unfold createdState
    rw [if_neg (by omega)]

/-- C8 witness: the spec's scenario — creating a valid product with initial
quantity 50 yields quantity 50, reserved 0, and exactly one
`IN`/`INITIAL_STOCK` transaction of quantity 50. -/
theorem c8_createProduct_witness :
    createProduct (Product.mk "Laptop" "Gaming Laptop" "LAP001" 1500)
        "Warehouse A" 50 = .ok (createdState 50) ∧
    (createdState 50).quantity = 50 ∧ (createdState 50).reserved = 0 ∧
    (createdState 50).txs =
      [Txn.mk "IN" 50 "INITIAL_STOCK" "Initial stock entry"] :=
  have h := c8_createProduct (Product.mk "Laptop" "Gaming Laptop" "LAP001" 1500)
    "Warehouse A" 50 (by norm_num [productValidate]; decide) (by decide) (by decide)
  ⟨h.1, h.2.1, h.2.2.1, h.2.2.2.1 (by decide)⟩

/-! ## Transaction types produced by the engine -/

/-- The transaction types the engine's operations actually produce. -/
def coreTxnType (t : Txn) : Bool :=
  t.type == "IN" || t.type == "OUT" || t.type == "RESERVE" || t.type == "UNRESERVE"

/-- A transaction of one of the four produced types is never a RETURN. -/
theorem coreTxnType_not_return (t : Txn) (h : coreTxnType t = true) :
    (t.type == "RETURN") = false := by
  cases hb : (t.type == "RETURN") with
  | false => rfl
  | true =>
      have hret : t.type = "RETURN" := by simpa using hb
      unfold coreTxnType at h
      rw [hret] at h
      exact absurd h (by decide)

/-- Every sequential call appends only transactions of the four produced
types. -/
theorem applyOp_txnTypes (s : InvState) (op : StockOp)
    (h : s.txs.all coreTxnType = true) :
    (applyOp s op).txs.all coreTxnType = true := by
  cases op with
  | add qty ref =>
      simp only [applyOp, opRun, opRun2]
      split
      · exact h
      · split
        · exact h
        · next s1 heq =>
            obtain ⟨_, _, ht, _, _, _⟩ := updateQuantity_some heq
            simp [appendTxn, ht, h, coreTxnType]
  | remove qty ref =>
      simp only [applyOp, opRun, opRun2]
      split
      · exact h
      · split
        · exact h
        · split
          · exact h
          · next s1 heq =>
              obtain ⟨_, _, ht, _, _, _⟩ := updateQuantity_some heq
              simp [appendTxn, ht, h, coreTxnType]
  | reserve qty ref =>
      simp only [applyOp, opRun, opRun2]
      split
      · exact h
      · split
        · exact h
        · split
          · exact h
          · next s1 heq =>
              obtain ⟨_, _, ht, _, _, _⟩ := updateQuantity_some heq
              simp [appendTxn, ht, h, coreTxnType]
  | unreserve qty ref =>
      simp only [applyOp, opRun, opRun2]
      split
      · exact h
      · split
        · exact h
        · split
          · exact h
          · next s1 heq =>
              obtain ⟨_, _, ht, _, _, _⟩ := updateQuantity_some heq
              simp [appendTxn, ht, h, coreTxnType]

/-- All transactions of states reached by sequences of sequential calls are
of the four produced types. -/
theorem applySeq_txnTypes (s : InvState) (ops : List StockOp)
    (h : s.txs.all coreTxnType = true) :
    (applySeq s ops).txs.all coreTxnType = true := by
  induction ops generalizing s with
  | nil => exact h
  | cons op ops ih => exact ih _ (applyOp_txnTypes s op h)

/-- C10: every transaction recorded by `CreateProduct` followed by any
sequence of the four operations has its type among IN, OUT, RESERVE,
UNRESERVE — none is ever a RETURN — even though RETURN belongs to
`Transaction.Validate`'s closed set of valid types. -/
theorem c10_txn_types (q0 : Int) (ops : List StockOp) (_hq : 0 ≤ q0) :
    (applySeq (createdState q0) ops).txs.all coreTxnType = true ∧
    (applySeq (createdState q0) ops).txs.all
      (fun t => !(t.type == "RETURN")) = true ∧
    validTxnType "RETURN" = true := by
  have hbase : (createdState q0).txs.all coreTxnType = true := by
    unfold createdState
    split <;> simp [coreTxnType]
  have hall := applySeq_txnTypes _ ops hbase
  refine ⟨hall, ?_, rfl⟩
  simp only [List.all_eq_true] at hall ⊢
  intro t ht
  simp [coreTxnType_not_return t (hall t ht)]

/-- C10 witness: a concrete run from creation with quantity 50. -/
theorem c10_txn_types_witness :
    (applySeq (createdState 50)
      [StockOp.add 5 "PO-1", StockOp.remove 20 "O-1", StockOp.reserve 10 "O-2",
       StockOp.unreserve 5 "O-2"]).txs.all coreTxnType = true ∧
    (applySeq (createdState 50)
      [StockOp.add 5 "PO-1", StockOp.remove 20 "O-1", StockOp.reserve 10 "O-2",
       StockOp.unreserve 5 "O-2"]).txs.all
      (fun t => !(t.type == "RETURN")) = true ∧
    validTxnType "RETURN" = true :=
  c10_txn_types 50 _ (by decide)

/-! ## Audit-append failures -/

/-- C7 counterexample: when the INITIAL_STOCK append fails during product
creation, `CreateProduct` still returns success with no transaction recorded
— the audit failure is discarded (`_ = s.transactionRepo.Create(...)` in the
Go source), not reported as the audit-append-failed error. -/
theorem c7_counterexample_create_swallows :
    createProductA (Product.mk "Laptop" "Gaming Laptop" "LAP001" 1500)
        "Warehouse A" 50 false = .ok (InvState.mk 50 0 []) ∧
    createProductA (Product.mk "Laptop" "Gaming Laptop" "LAP001" 1500)
        "Warehouse A" 50 false ≠ .error .auditAppendFailed := by
  have hp : productValidate
      (Product.mk "Laptop" "Gaming Laptop" "LAP001" 1500) = true := by
    norm_num [productValidate]
    decide
  have hok : createProductA (Product.mk "Laptop" "Gaming Laptop" "LAP001" 1500)
      "Warehouse A" 50 false = .ok (InvState.mk 50 0 []) := by
    unfold createProductA
    rw [if_neg (not_not_intro hp),
        if_neg (not_not_intro ⟨by decide, by decide⟩)]
    simp
  refine ⟨hok, ?_⟩
  rw [hok]
  simp

/-- C7 (amended): for the four stock operations (AddStock, RemoveStock,
ReserveStock, UnreserveStock), when the guarded mutation succeeds but the
transaction append fails, the service reports the distinct audit-append
error and does not roll back the mutation — the post-state keeps the applied
deltas and records no transaction; the INITIAL_STOCK append during product
creation, however, is silently ignored: `CreateProduct` still reports
success. -/
theorem c7_audit_failure (op : StockOp) (s s1 : InvState)
    (hq : 0 < opQty op) (hpre : opPrecheck op s = true)
    (hupd : updateQuantity (opDelta op).1 (opDelta op).2 s = some s1) :
    (opRunAudit op false s = (.error .auditAppendFailed, s1) ∧
      s1.quantity = s.quantity + (opDelta op).1 ∧
      s1.reserved = s.reserved + (opDelta op).2 ∧
      s1.txs = s.txs) ∧
    (∀ p loc q0, productValidate p = true → loc ≠ "" → 0 ≤ q0 →
      createProductA p loc q0 false = .ok (InvState.mk q0 0 [])) := by
  constructor
  · obtain ⟨hq1, hr1, ht1, _, _, _⟩ := updateQuantity_some hupd
    refine ⟨?_, hq1, hr1, ht1⟩
    cases op with
    | add qty ref =>
        simp only [opQty] at hq
        simp only [opDelta] at hupd
        simp only [opRunAudit]
        rw [if_neg (by omega : ¬ qty ≤ 0), hupd]
        rfl
    | remove qty ref =>
        simp only [opQty] at hq
        simp only [opDelta] at hupd
        simp only [opPrecheck, decide_eq_true_eq] at hpre
        simp only [opRunAudit]
        rw [if_neg (by omega : ¬ qty ≤ 0), if_neg (by omega), hupd]
        rfl
    | reserve qty ref =>
        simp only [opQty] at hq
        simp only [opDelta] at hupd
        simp only [opPrecheck, decide_eq_true_eq] at hpre
        simp only [opRunAudit]
        rw [if_neg (by omega : ¬ qty ≤ 0), if_neg (by omega), hupd]
        rfl
    | unreserve qty ref =>
        simp only [opQty] at hq
        simp only [opDelta] at hupd
        simp only [opPrecheck, decide_eq_true_eq] at hpre
        simp only [opRunAudit]
        rw [if_neg (by omega : ¬ qty ≤ 0), if_neg (by omega), hupd]
        rfl
  · intro p loc q0 hp hloc hq0
    unfold createProductA
    rw [if_neg (not_not_intro hp), if_neg (not_not_intro ⟨hq0, hloc⟩)]
    simp

/-- C7 witness: AddStock of 20 on quantity 50 with a failing transaction
store applies the mutation (quantity 70), records nothing, and reports the
audit-append error; a CreateProduct with a failing transaction store still
reports success. -/
theorem c7_audit_failure_witness :
    (opRunAudit (.add 20 "PO-001") false (InvState.mk 50 0 []) =
        (.error .auditAppendFailed, InvState.mk 70 0 []) ∧
      (InvState.mk 70 0 []).quantity = (InvState.mk 50 0 []).quantity + 20 ∧
      (InvState.mk 70 0 []).txs = (InvState.mk 50 0 []).txs) ∧
    createProductA (Product.mk "Laptop" "Gaming Laptop" "LAP001" 1500)
        "Warehouse A" 50 false = .ok (InvState.mk 50 0 []) :=
  have h := c7_audit_failure (.add 20 "PO-001") (InvState.mk 50 0 [])
    (InvState.mk 70 0 []) (by decide) (by decide) (by decide)
  ⟨⟨h.1.1, h.1.2.1, h.1.2.2.2⟩,
   h.2 (Product.mk "Laptop" "Gaming Laptop" "LAP001" 1500) "Warehouse A" 50
     (by norm_num [productValidate]; decide) (by decide) (by decide)⟩

/-! ## Concurrency: two racing operations -/

/-- Outcome of one interleaved execution of two racing operations on the
same item: each caller's result, the store state after the first guarded
UPDATE (`mid`) and after both (`fin`). -/
structure RaceOutcome where
  resA : Except InvError Unit
  resB : Except InvError Unit
  mid : InvState
  fin : InvState
  deriving DecidableEq, Repr

/-- The six interleavings of two calls, each consisting of a read
(`GetByProductID`) followed by a guarded UPDATE, preserving each call's
program order (the letters give the order of A's and B's events; a read is
the first occurrence of a letter, the UPDATE the second). -/
inductive Sched2 where
  | aabb
  | abab
  | abba
  | baab
  | baba
  | bbaa
  deriving DecidableEq, Repr

/-- Execute two operations under a given interleaving.  A read takes a
snapshot of the store at that moment; an UPDATE runs the guarded conditional
UPDATE against the store as it is then, with the pre-checks evaluated on the
snapshot the call read earlier. -/
def interleave2 (opA opB : StockOp) (s0 : InvState) : Sched2 → RaceOutcome
  | .aabb =>
      let pa := opRun2 opA s0 s0
      let pb := opRun2 opB pa.2 pa.2
      ⟨pa.1, pb.1, pa.2, pb.2⟩
  | .abab =>
      let pa := opRun2 opA s0 s0
      let pb := opRun2 opB s0 pa.2
      ⟨pa.1, pb.1, pa.2, pb.2⟩
  | .abba =>
      let pb := opRun2 opB s0 s0
      let pa := opRun2 opA s0 pb.2
      ⟨pa.1, pb.1, pb.2, pa.2⟩
  | .baab =>
      let pa := opRun2 opA s0 s0
      let pb := opRun2 opB s0 pa.2
      ⟨pa.1, pb.1, pa.2, pb.2⟩
  | .baba =>
      let pb := opRun2 opB s0 s0
      let pa := opRun2 opA s0 pb.2
      ⟨pa.1, pb.1, pb.2, pa.2⟩
  | .bbaa =>
      let pb := opRun2 opB s0 s0
      let pa := opRun2 opA pb.2 pb.2
      ⟨pa.1, pb.1, pb.2, pa.2⟩

/-- A sequentially successful operation applies exactly its delta pair. -/
theorem opRun_ok_delta (op : StockOp) (s : InvState)
    (h : (opRun op s).1 = .ok ()) :
    (opRun op s).2.quantity = s.quantity + (opDelta op).1 ∧
    (opRun op s).2.reserved = s.reserved + (opDelta op).2 := by
  cases op with
  | add qty ref =>
      by_cases h1 : qty ≤ 0
      · exfalso
        simp only [opRun, opRun2, if_pos h1] at h
        exact Except.noConfusion h
      · rcases hu : updateQuantity qty 0 s with _ | s1
        · exfalso
          simp only [opRun, opRun2, if_neg h1, hu] at h
          exact Except.noConfusion h
        · obtain ⟨hq1, hr1, _, _, _, _⟩ := updateQuantity_some hu
          simp only [opRun, opRun2, if_neg h1, hu, opDelta]
          exact ⟨hq1, hr1⟩
  | remove qty ref =>
      by_cases h1 : qty ≤ 0
      · exfalso
        simp only [opRun, opRun2, if_pos h1] at h
        exact Except.noConfusion h
      · by_cases h2 : availableQuantity s < qty
        · exfalso
          simp only [opRun, opRun2, if_neg h1, if_pos h2] at h
          exact Except.noConfusion h
        · rcases hu : updateQuantity (-qty) 0 s with _ | s1
          · exfalso
            simp only [opRun, opRun2, if_neg h1, if_neg h2, hu] at h
            exact Except.noConfusion h
          · obtain ⟨hq1, hr1, _, _, _, _⟩ := updateQuantity_some hu
            simp only [opRun, opRun2, if_neg h1, if_neg h2, hu, opDelta]
            exact ⟨hq1, hr1⟩
  | reserve qty ref =>
      by_cases h1 : qty ≤ 0
      · exfalso
        simp only [opRun, opRun2, if_pos h1] at h
        exact Except.noConfusion h
      · by_cases h2 : availableQuantity s < qty
        · exfalso
          simp only [opRun, opRun2, if_neg h1, if_pos h2] at h
          exact Except.noConfusion h
        · rcases hu : updateQuantity 0 qty s with _ | s1
          · exfalso
            simp only [opRun, opRun2, if_neg h1, if_neg h2, hu] at h
            exact Except.noConfusion h
          · obtain ⟨hq1, hr1, _, _, _, _⟩ := updateQuantity_some hu
            simp only [opRun, opRun2, if_neg h1, if_neg h2, hu, opDelta]
            exact ⟨hq1, hr1⟩
  | unreserve qty ref =>
      by_cases h1 : qty ≤ 0
      · exfalso
        simp only [opRun, opRun2, if_pos h1] at h
        exact Except.noConfusion h
      · by_cases h2 : s.reserved < qty
        · exfalso
          simp only [opRun, opRun2, if_neg h1, if_pos h2] at h
          exact Except.noConfusion h
        · rcases hu : updateQuantity 0 (-qty) s with _ | s1
          · exfalso
            simp only [opRun, opRun2, if_neg h1, if_neg h2, hu] at h
            exact Except.noConfusion h
          · obtain ⟨hq1, hr1, _, _, _, _⟩ := updateQuantity_some hu
            simp only [opRun, opRun2, if_neg h1, if_neg h2, hu, opDelta]
            exact ⟨hq1, hr1⟩

/-- Joint-violation rejection: if applying an operation's delta to the
current store state would break the invariant, the operation is rejected —
whichever snapshot its pre-checks read — and the store is left unchanged,
because the guard of the conditional UPDATE is exactly the invariant on the
would-be post-state. -/
theorem opRun2_reject (op : StockOp) (sRead sDb : InvState)
    (h : ¬ pairInv (sDb.quantity + (opDelta op).1,
                    sDb.reserved + (opDelta op).2)) :
    (opRun2 op sRead sDb).1 ≠ .ok () ∧ (opRun2 op sRead sDb).2 = sDb := by
  have hnone : updateQuantity (opDelta op).1 (opDelta op).2 sDb = none := by
    rw [updateQuantity_none]
    rintro ⟨g1, g2, g3⟩
    exact h ⟨g2, by omega⟩
  cases op with
  | add qty ref =>
      simp only [opDelta] at hnone
      by_cases h1 : qty ≤ 0
      · simp only [opRun2, if_pos h1]
        exact ⟨fun hc => Except.noConfusion hc, by trivial⟩
      · simp only [opRun2, if_neg h1, hnone]
        exact ⟨fun hc => Except.noConfusion hc, by trivial⟩
  | remove qty ref =>
      simp only [opDelta] at hnone
      by_cases h1 : qty ≤ 0
      · simp only [opRun2, if_pos h1]
        exact ⟨fun hc => Except.noConfusion hc, by trivial⟩
      · by_cases h2 : availableQuantity sRead < qty
        · simp only [opRun2, if_neg h1, if_pos h2]
          exact ⟨fun hc => Except.noConfusion hc, by trivial⟩
        · simp only [opRun2, if_neg h1, if_neg h2, hnone]
          exact ⟨fun hc => Except.noConfusion hc, by trivial⟩
  | reserve qty ref =>
      simp only [opDelta] at hnone
      by_cases h1 : qty ≤ 0
      · simp only [opRun2, if_pos h1]
        exact ⟨fun hc => Except.noConfusion hc, by trivial⟩
      · by_cases h2 : availableQuantity sRead < qty
        · simp only [opRun2, if_neg h1, if_pos h2]
          exact ⟨fun hc => Except.noConfusion hc, by trivial⟩
        · simp only [opRun2, if_neg h1, if_neg h2, hnone]
          exact ⟨fun hc => Except.noConfusion hc, by trivial⟩
  | unreserve qty ref =>
      simp only [opDelta] at hnone
      by_cases h1 : qty ≤ 0
      · simp only [opRun2, if_pos h1]
        exact ⟨fun hc => Except.noConfusion hc, by trivial⟩
      · by_cases h2 : sRead.reserved < qty
        · simp only [opRun2, if_neg h1, if_pos h2]
          exact ⟨fun hc => Except.noConfusion hc, by trivial⟩
        · simp only [opRun2, if_neg h1, if_neg h2, hnone]
          exact ⟨fun hc => Except.noConfusion hc, by trivial⟩

/-- The operation whose guarded UPDATE executes first wins; the other —
whose joint effect with the winner would violate the invariant — is
rejected at its own UPDATE and leaves the store as the winner left it. -/
theorem race_first_wins (opX opY : StockOp) (s0 sR : InvState)
    (hX : (opRun opX s0).1 = .ok ())
    (hJ : ¬ pairInv (s0.quantity + (opDelta opX).1 + (opDelta opY).1,
                     s0.reserved + (opDelta opX).2 + (opDelta opY).2)) :
    (opRun2 opY sR (opRun opX s0).2).1 ≠ .ok () ∧
    (opRun2 opY sR (opRun opX s0).2).2 = (opRun opX s0).2 ∧
    (opRun opX s0).2.quantity = s0.quantity + (opDelta opX).1 ∧
    (opRun opX s0).2.reserved = s0.reserved + (opDelta opX).2 := by
  obtain ⟨hq1, hr1⟩ := opRun_ok_delta opX s0 hX
  have hrej := opRun2_reject opY sR (opRun opX s0).2 (by
    rw [hq1, hr1]
    exact hJ)
  exact ⟨hrej.1, hrej.2, hq1, hr1⟩

/-- C9: for any two racing operations on the same item that each succeed
individually on the initial (invariant) state but whose joint effect would
violate the invariant, under every interleaving of their read and guarded
UPDATE events exactly one of the two is applied and the other rejected —
the final state carries exactly the winner's delta (no lost update) — and
every store state the race makes visible satisfies
`0 ≤ reserved ≤ quantity`. -/
theorem c9_race (opA opB : StockOp) (s0 : InvState) (sched : Sched2)
    (hinv : invHolds s0)
    (hA : (opRun opA s0).1 = .ok ()) (hB : (opRun opB s0).1 = .ok ())
    (hJ : ¬ pairInv (s0.quantity + (opDelta opA).1 + (opDelta opB).1,
                     s0.reserved + (opDelta opA).2 + (opDelta opB).2)) :
    (((interleave2 opA opB s0 sched).resA = .ok () ∧
       (interleave2 opA opB s0 sched).resB ≠ .ok () ∧
       (interleave2 opA opB s0 sched).fin.quantity =
         s0.quantity + (opDelta opA).1 ∧
       (interleave2 opA opB s0 sched).fin.reserved =
         s0.reserved + (opDelta opA).2) ∨
     ((interleave2 opA opB s0 sched).resB = .ok () ∧
       (interleave2 opA opB s0 sched).resA ≠ .ok () ∧
       (interleave2 opA opB s0 sched).fin.quantity =
         s0.quantity + (opDelta opB).1 ∧
       (interleave2 opA opB s0 sched).fin.reserved =
         s0.reserved + (opDelta opB).2)) ∧
    invHolds (interleave2 opA opB s0 sched).mid ∧
    invHolds (interleave2 opA opB s0 sched).fin := by
  have hJBA : ¬ pairInv (s0.quantity + (opDelta opB).1 + (opDelta opA).1,
      s0.reserved + (opDelta opB).2 + (opDelta opA).2) := by
    rw [(by ring : s0.quantity + (opDelta opB).1 + (opDelta opA).1 =
          s0.quantity + (opDelta opA).1 + (opDelta opB).1),
        (by ring : s0.reserved + (opDelta opB).2 + (opDelta opA).2 =
          s0.reserved + (opDelta opA).2 + (opDelta opB).2)]
    exact hJ
  have hmidA : invHolds (opRun opA s0).2 := opRun2_invHolds opA s0 s0 hinv
  have hmidB : invHolds (opRun opB s0).2 := opRun2_invHolds opB s0 s0 hinv
  cases sched with
  | aabb =>
      have e : interleave2 opA opB s0 .aabb =
          RaceOutcome.mk (opRun opA s0).1
            (opRun2 opB (opRun opA s0).2 (opRun opA s0).2).1
            (opRun opA s0).2
            (opRun2 opB (opRun opA s0).2 (opRun opA s0).2).2 := rfl
      have hw := race_first_wins opA opB s0 (opRun opA s0).2 hA hJ
      rw [e]
      refine ⟨Or.inl ⟨hA, hw.1, ?_, ?_⟩, hmidA, ?_⟩
      · rw [hw.2.1]
        exact hw.2.2.1
      · rw [hw.2.1]
        exact hw.2.2.2
      · rw [hw.2.1]
        exact hmidA
  | abab =>
      have e : interleave2 opA opB s0 .abab =
          RaceOutcome.mk (opRun opA s0).1
            (opRun2 opB s0 (opRun opA s0).2).1
            (opRun opA s0).2
            (opRun2 opB s0 (opRun opA s0).2).2 := rfl
      have hw := race_first_wins opA opB s0 s0 hA hJ
      rw [e]
      refine ⟨Or.inl ⟨hA, hw.1, ?_, ?_⟩, hmidA, ?_⟩
      · rw [hw.2.1]
        exact hw.2.2.1
      · rw [hw.2.1]
        exact hw.2.2.2
      · rw [hw.2.1]
        exact hmidA
  | baab =>
      have e : interleave2 opA opB s0 .baab =
          RaceOutcome.mk (opRun opA s0).1
            (opRun2 opB s0 (opRun opA s0).2).1
            (opRun opA s0).2
            (opRun2 opB s0 (opRun opA s0).2).2 := rfl
      have hw := race_first_wins opA opB s0 s0 hA hJ
      rw [e]
      refine ⟨Or.inl ⟨hA, hw.1, ?_, ?_⟩, hmidA, ?_⟩
      · rw [hw.2.1]
        exact hw.2.2.1
      · rw [hw.2.1]
        exact hw.2.2.2
      · rw [hw.2.1]
        exact hmidA
  | abba =>
      have e : interleave2 opA opB s0 .abba =
          RaceOutcome.mk (opRun2 opA s0 (opRun opB s0).2).1
            (opRun opB s0).1
            (opRun opB s0).2
            (opRun2 opA s0 (opRun opB s0).2).2 := rfl
      have hw := race_first_wins opB opA s0 s0 hB hJBA
      rw [e]
      refine ⟨Or.inr ⟨hB, hw.1, ?_, ?_⟩, hmidB, ?_⟩
      · rw [hw.2.1]
        exact hw.2.2.1
      · rw [hw.2.1]
        exact hw.2.2.2
      · rw [hw.2.1]
        exact hmidB
  | baba =>
      have e : interleave2 opA opB s0 .baba =
          RaceOutcome.mk (opRun2 opA s0 (opRun opB s0).2).1
            (opRun opB s0).1
            (opRun opB s0).2
            (opRun2 opA s0 (opRun opB s0).2).2 := rfl
      have hw := race_first_wins opB opA s0 s0 hB hJBA
      rw [e]
      refine ⟨Or.inr ⟨hB, hw.1, ?_, ?_⟩, hmidB, ?_⟩
      · rw [hw.2.1]
        exact hw.2.2.1
      · rw [hw.2.1]
        exact hw.2.2.2
      · rw [hw.2.1]
        exact hmidB
  | bbaa =>
      have e : interleave2 opA opB s0 .bbaa =
          RaceOutcome.mk (opRun2 opA (opRun opB s0).2 (opRun opB s0).2).1
            (opRun opB s0).1
            (opRun opB s0).2
            (opRun2 opA (opRun opB s0).2 (opRun opB s0).2).2 := rfl
      have hw := race_first_wins opB opA s0 (opRun opB s0).2 hB hJBA
      rw [e]
      refine ⟨Or.inr ⟨hB, hw.1, ?_, ?_⟩, hmidB, ?_⟩
      · rw [hw.2.1]
        exact hw.2.2.1
      · rw [hw.2.1]
        exact hw.2.2.2
      · rw [hw.2.1]
        exact hmidB

/-- C9 witness: the spec's scenario — two racing `RemoveStock(30)` calls
against quantity 50, reserved 0 (joint demand 60 > 50): in the read-read-
update-update interleaving, exactly one succeeds, the final quantity is 20,
and no visible state is negative or over-reserved. -/
theorem c9_race_witness :
    (((interleave2 (StockOp.remove 30 "ORDER-A") (StockOp.remove 30 "ORDER-B")
          (InvState.mk 50 0 []) .abab).resA = .ok () ∧
       (interleave2 (StockOp.remove 30 "ORDER-A") (StockOp.remove 30 "ORDER-B")
          (InvState.mk 50 0 []) .abab).resB ≠ .ok () ∧
       (interleave2 (StockOp.remove 30 "ORDER-A") (StockOp.remove 30 "ORDER-B")
          (InvState.mk 50 0 []) .abab).fin.quantity =
         (InvState.mk 50 0 []).quantity + (opDelta (StockOp.remove 30 "ORDER-A")).1 ∧
       (interleave2 (StockOp.remove 30 "ORDER-A") (StockOp.remove 30 "ORDER-B")
          (InvState.mk 50 0 []) .abab).fin.reserved =
         (InvState.mk 50 0 []).reserved + (opDelta (StockOp.remove 30 "ORDER-A")).2) ∨
     ((interleave2 (StockOp.remove 30 "ORDER-A") (StockOp.remove 30 "ORDER-B")
          (InvState.mk 50 0 []) .abab).resB = .ok () ∧
       (interleave2 (StockOp.remove 30 "ORDER-A") (StockOp.remove 30 "ORDER-B")
          (InvState.mk 50 0 []) .abab).resA ≠ .ok () ∧
       (interleave2 (StockOp.remove 30 "ORDER-A") (StockOp.remove 30 "ORDER-B")
          (InvState.mk 50 0 []) .abab).fin.quantity =
         (InvState.mk 50 0 []).quantity + (opDelta (StockOp.remove 30 "ORDER-B")).1 ∧
       (interleave2 (StockOp.remove 30 "ORDER-A") (StockOp.remove 30 "ORDER-B")
          (InvState.mk 50 0 []) .abab).fin.reserved =
         (InvState.mk 50 0 []).reserved + (opDelta (StockOp.remove 30 "ORDER-B")).2)) ∧
    invHolds (interleave2 (StockOp.remove 30 "ORDER-A") (StockOp.remove 30 "ORDER-B")
        (InvState.mk 50 0 []) .abab).mid ∧
    invHolds (interleave2 (StockOp.remove 30 "ORDER-A") (StockOp.remove 30 "ORDER-B")
        (InvState.mk 50 0 []) .abab).fin :=
  c9_race (StockOp.remove 30 "ORDER-A") (StockOp.remove 30 "ORDER-B")
    (InvState.mk 50 0 []) .abab (by decide) rfl rfl (by decide)

/-! ## Zero-rows error translation -/

/-- C6 (amended): when the service-level pre-checks passed on the snapshot a
call read but the guarded conditional UPDATE affects zero rows (a racing
writer changed the store in between), the engine observes it and returns an
error — it never silently succeeds — but that error is the generic
update-failed error ("quantity update failed: invalid operation or item not
found"), not the operation-specific domain error; the specific
insufficient-stock / insufficient-reserved-stock errors come only from the
non-atomic pre-check that runs before the UPDATE. -/
theorem c6_zero_rows_generic_error (op : StockOp) (sRead sDb : InvState)
    (hq : 0 < opQty op) (hpre : opPrecheck op sRead = true)
    (hnone : updateQuantity (opDelta op).1 (opDelta op).2 sDb = none) :
    opRun2 op sRead sDb = (.error .updateFailed, sDb) ∧
    InvError.updateFailed ≠ InvError.insufficientStock ∧
    InvError.updateFailed ≠ InvError.insufficientReservedStock := by
  refine ⟨?_, by decide, by decide⟩
  cases op with
  | add qty ref =>
      simp only [opQty] at hq
      simp only [opDelta] at hnone
      simp only [opRun2]
      rw [if_neg (by omega : ¬ qty ≤ 0), hnone]
  | remove qty ref =>
      simp only [opQty] at hq
      simp only [opDelta] at hnone
      simp only [opPrecheck, decide_eq_true_eq] at hpre
      simp only [opRun2]
      rw [if_neg (by omega : ¬ qty ≤ 0), if_neg (by omega), hnone]
  | reserve qty ref =>
      simp only [opQty] at hq
      simp only [opDelta] at hnone
      simp only [opPrecheck, decide_eq_true_eq] at hpre
      simp only [opRun2]
      rw [if_neg (by omega : ¬ qty ≤ 0), if_neg (by omega), hnone]
  | unreserve qty ref =>
      simp only [opQty] at hq
      simp only [opDelta] at hnone
      simp only [opPrecheck, decide_eq_true_eq] at hpre
      simp only [opRun2]
      rw [if_neg (by omega : ¬ qty ≤ 0), if_neg (by omega), hnone]

/-- C6 counterexample: in a real race (two `RemoveStock(30)` calls on
quantity 50, read-read-update-update), the loser's zero-row UPDATE is
reported as the generic update-failed error, not as the operation-specific
insufficient-stock error the claim requires. -/
theorem c6_counterexample_generic_error :
    (interleave2 (StockOp.remove 30 "ORDER-A") (StockOp.remove 30 "ORDER-B")
        (InvState.mk 50 0 []) .abab).resB = .error .updateFailed ∧
    (interleave2 (StockOp.remove 30 "ORDER-A") (StockOp.remove 30 "ORDER-B")
        (InvState.mk 50 0 []) .abab).resB ≠ .error .insufficientStock := by
  exact ⟨by decide, by decide⟩

/-- C6 witness: a concrete zero-rows situation — pre-check passed on the
snapshot (quantity 50) but the store now holds quantity 20, so removing 30
is rejected by the guard and surfaced as the generic update-failed error. -/
theorem c6_zero_rows_generic_error_witness :
    opRun2 (StockOp.remove 30 "ORDER-B") (InvState.mk 50 0 [])
        (InvState.mk 20 0 []) =
      (.error .updateFailed, InvState.mk 20 0 []) ∧
    InvError.updateFailed ≠ InvError.insufficientStock ∧
    InvError.updateFailed ≠ InvError.insufficientReservedStock :=
  c6_zero_rows_generic_error (StockOp.remove 30 "ORDER-B")
    (InvState.mk 50 0 []) (InvState.mk 20 0 []) (by decide) (by decide)
    (by decide)

end DistInv
